import Mathlib

/-!
Shallow embedding of the BrowseBox indexer image service
(`src/utils/KeyGeneration.ts`, `src/api/RequestValidation.ts`, `src/S3.ts`,
`src/api/routes/UploadImage.ts`, `UpdateImage.ts`, `DeleteImage.ts`,
`RetrieveImage.ts`).

Conventions of the embedding:
* JavaScript strings are Lean `String`s; operations such as `split`,
  `substring` and truthiness are re-implemented over `String.data`
  (lists of characters) so that every definition is executable and
  kernel-reducible.
* `undefined` values (a missing body field, the awaited value of a
  rejected promise handled by `.catch`) are `Option.none`.
* Each Express handler becomes a pure function from an environment
  (hash function, bucket name), a fault-injection record describing the
  outcomes of the external Prisma/S3 calls, the database state, and the
  request, to a `HandlerResult`: the client-visible response, the final
  database, and the lists of S3 put/delete requests that were sent.
* Express sends the first response written; later `res.status(..).json(..)`
  calls raise and never reach the client, and in every handler of this
  repository no store call follows such a second write, so they are
  modelled as no-ops (`sendOnce`).
* `sharp` re-encoding is modelled as succeeding; the uploaded body bytes
  are not tracked because only the key and content type of an S3 put are
  observable in the claims.
-/

namespace BrowseBox

/-- JS `s.split(sep)` helper over character lists (single-character
separator): cuts the list at every occurrence of `sep`. -/
def splitCharAux (sep : Char) : List Char → List (List Char)
  | [] => [[]]
  | c :: cs =>
    if c = sep then [] :: splitCharAux sep cs
    else
      match splitCharAux sep cs with
      | [] => [[c]]
      | g :: gs => (c :: g) :: gs

/-- JS `s.split(sep)` for a one-character separator. -/
def jsSplit (s : String) (sep : Char) : List String :=
  (splitCharAux sep s.data).map String.mk

/-- JS `s.substring(a, b)`: the characters from index `a` (inclusive) to
`b` (exclusive).  The source only uses `a = 0`. -/
def jsSubstring (s : String) (a b : Nat) : String :=
  String.mk ((s.data.take b).drop a)

/-- JS `s.startsWith(pre)`. -/
def jsStartsWith (s pre : String) : Bool :=
  pre.data.isPrefixOf s.data

/-- `src/utils/KeyGeneration.ts`, `generateImageKey`:

```ts
function generateImageKey(type, imageHash, mimetype) {
    const extension = mimetype.split('/')[1];
    const folder = type === "profile" ? "profile" : "listing";
    const key = `assets/img/${folder}/${imageHash.substring(0, 1)}/${imageHash.substring(0, 2)}/${imageHash}.${extension}`;
    return key;
}
```

In JS, indexing past the end of the `split` array yields `undefined` and a
template literal renders it as the text `"undefined"`; `getD "undefined"`
reproduces that. The function performs no validation and always returns a
key. -/
def generateImageKey (type imageHash mimetype : String) : String :=
  let extension : String := ((jsSplit mimetype '/').get? 1).getD "undefined"
  let folder : String := if type = "profile" then "profile" else "listing"
  "assets/img/" ++ folder ++ "/" ++ jsSubstring imageHash 0 1 ++ "/" ++
    jsSubstring imageHash 0 2 ++ "/" ++ imageHash ++ "." ++ extension

/-- A lowercase hexadecimal digit, as used by `crypto`'s hex digest. -/
def isLowerHexChar (c : Char) : Bool :=
  c.isDigit || ('a' ≤ c && c ≤ 'f')

/-- A 64-character lowercase-hex SHA-256 digest string. -/
def isHexDigest64 (s : String) : Bool :=
  s.data.length = 64 && s.data.all isLowerHexChar

/-- JS truthiness of an optional string body field: `undefined` and the
empty string are falsy, every other string (including `"0"`) is truthy. -/
def truthyStr : Option String → Bool
  | none => false
  | some s => !(s = "")

/-- The fields of `req.body` that `requestValidation` inspects.  `type` is
read by the source but never used. -/
structure ValReq where
  type : Option String := none
  id : Option String := none
  index : Option String := none
deriving Repr, DecidableEq

/-- `src/api/RequestValidation.ts`, `requestValidation`.  The enum in that
file has exactly two members, `PROFILE = 'profile'` and
`LISTING = 'listing'`; every other argument — including the literal
`'delete'` passed by the delete routes and the `undefined` produced when a
route accesses an enum member that does not exist (`RequestType.UPLOAD_PROFILE`
etc.) — falls through to the `default` branch, which returns `true`.  The
argument is `Option String` so that `none` models `undefined`. -/
def requestValidation (requestType : Option String) (req : ValReq) : Bool :=
  match requestType with
  | some "profile" => truthyStr req.id
  | some "listing" => truthyStr req.id && truthyStr req.index
  | _ => true

/-- JS `parseInt(x)` restricted to what the routes feed it: an optional
form-body string.  `none` models `NaN` (missing field or no leading
digits); otherwise the value of the optional sign and the longest leading
run of decimal digits. -/
def leadingDigits : List Char → List Char
  | [] => []
  | c :: cs => if c.isDigit then c :: leadingDigits cs else []

/-- Digit-list value accumulator for `parseIntJS`. -/
def digitsVal (l : List Char) : Nat :=
  l.foldl (fun a c => a * 10 + (c.toNat - 48)) 0

/-- JS `parseInt` on an optional string (see `leadingDigits`). -/
def parseIntJS : Option String → Option Int
  | none => none
  | some s =>
    let t := s.data.dropWhile Char.isWhitespace
    match t with
    | '-' :: rest =>
      match leadingDigits rest with
      | [] => none
      | ds => some (-(digitsVal ds : Int))
    | '+' :: rest =>
      match leadingDigits rest with
      | [] => none
      | ds => some (digitsVal ds : Int)
    | rest =>
      match leadingDigits rest with
      | [] => none
      | ds => some (digitsVal ds : Int)

/-- A row of the `profile` table (`prisma/database/image.sql`): primary key
`userId`, column `image` holding the storage key. -/
structure ProfileRec where
  userId : Int
  image : String
deriving Repr, DecidableEq

/-- A row of the `listing` table: primary key `listingId`, columns `index`
and `image`. -/
structure ListingRec where
  listingId : Int
  index : Int
  image : String
deriving Repr, DecidableEq

/-- The relational store: the two tables used by the routes. -/
structure DB where
  profiles : List ProfileRec
  listings : List ListingRec
deriving Repr, DecidableEq

/-- `prisma.profile.findUnique({ where: { userId } })`. -/
def DB.findProfile (db : DB) (uid : Int) : Option ProfileRec :=
  db.profiles.find? (fun p => p.userId == uid)

/-- `prisma.profile.create({ data: ... })`. -/
def DB.createProfile (db : DB) (r : ProfileRec) : DB :=
  { db with profiles := db.profiles ++ [r] }

/-- `prisma.profile.update({ where: { userId }, data: { image } })`. -/
def DB.updateProfile (db : DB) (uid : Int) (img : String) : DB :=
  { db with profiles :=
      db.profiles.map (fun p => if p.userId == uid then { p with image := img } else p) }

/-- `prisma.profile.delete({ where: { userId } })`. -/
def DB.deleteProfile (db : DB) (uid : Int) : DB :=
  { db with profiles := db.profiles.filter (fun p => !(p.userId == uid)) }

/-- `prisma.listing.findUnique({ where: { listingId } })` — the upload and
update routes look listings up by `listingId` alone. -/
def DB.findListing (db : DB) (lid : Int) : Option ListingRec :=
  db.listings.find? (fun l => l.listingId == lid)

/-- `prisma.listing.findFirst({ where: { listingId, index } })` — used by
the delete and retrieve routes. -/
def DB.findListingFirst (db : DB) (lid idx : Int) : Option ListingRec :=
  db.listings.find? (fun l => l.listingId == lid && l.index == idx)

/-- `prisma.listing.create({ data: ... })`. -/
def DB.createListing (db : DB) (r : ListingRec) : DB :=
  { db with listings := db.listings ++ [r] }

/-- `prisma.listing.update({ where: { listingId }, data: { index, image } })`. -/
def DB.updateListing (db : DB) (lid idx : Int) (img : String) : DB :=
  { db with listings :=
      db.listings.map (fun l =>
        if l.listingId == lid then { l with index := idx, image := img } else l) }

/-- `prisma.listing.deleteMany({ where: { listingId, index } })`. -/
def DB.deleteListings (db : DB) (lid idx : Int) : DB :=
  { db with listings := db.listings.filter (fun l => !(l.listingId == lid && l.index == idx)) }

/-- Outcome of a single S3 client call (`s3Client.send`): success, a
rejection with an `Error` instance, or a rejection with a non-`Error`
value.  `uploadFile` and `deleteFile` in `src/S3.ts` log and rethrow the
failure only when it is an `Error` (`if (error instanceof Error) { ... throw error; }`);
a non-`Error` rejection is swallowed and the call returns normally. -/
inductive S3Outcome where
  | ok
  | failError
  | failNonError
deriving Repr, DecidableEq

/-- An S3 `PutObjectCommand` request as sent by `uploadFile`: the key and
content type (the body bytes are not observable in any claim). -/
structure S3Put where
  key : String
  contentType : String
deriving Repr, DecidableEq

/-- An HTTP response body as the routes build them: status, optional
`message` field, optional `imageUrl` field. -/
structure HttpResponse where
  status : Nat
  message : Option String
  imageUrl : Option String
deriving Repr, DecidableEq

/-- Result of running one handler: the client-visible response (the first
one written), the final database, and the S3 put / delete requests that
were sent, in order. -/
structure HandlerResult where
  response : Option HttpResponse
  db : DB
  puts : List S3Put
  deletes : List String
deriving Repr, DecidableEq

/-- Express sends the first response written; a later write raises
`ERR_HTTP_HEADERS_SENT` and does not reach the client (and in these routes
no store call ever follows a second write). -/
def sendOnce : Option HttpResponse → HttpResponse → Option HttpResponse
  | none, r => some r
  | some r0, _ => some r0

/-- The environment the routes close over: the SHA-256 hex digest function
(`crypto.createHash('sha256')...digest('hex')`) and the S3 bucket name. -/
structure Env where
  sha256 : List Nat → String
  bucket : String

/-- The public base URL the routes prepend to a storage key. -/
def Env.baseUrl (e : Env) : String :=
  "https://" ++ e.bucket ++ ".s3.us-west-2.amazonaws.com/"

/-- Injected outcomes for the external calls a single handler makes:
whether the Prisma read rejects, whether the Prisma write
(create/update/delete) rejects, and the outcomes of the S3 put and the S3
delete. -/
structure Faults where
  findFails : Bool := false
  writeFails : Bool := false
  putOutcome : S3Outcome := .ok
  delOutcome : S3Outcome := .ok
deriving Repr, DecidableEq

/-- A multipart file as multer delivers it. -/
structure FileData where
  originalname : String
  mimetype : String
  buffer : List Nat
deriving Repr, DecidableEq

/-- An upload/update request: body fields `id` and `index` plus the
optional file part. -/
structure UploadReq where
  id : Option String := none
  index : Option String := none
  file : Option FileData := none
deriving Repr, DecidableEq

/-- The multer `fileFilter` of every route: accept when the mimetype
starts with `image/`, otherwise fail the request with
`new Error('Invalid file type')`, which Express's default error handler
turns into a 500 before the handler body runs.  Without a file part the
filter never runs. -/
def multerSingle (db : DB) (file : Option FileData) (body : HandlerResult) : HandlerResult :=
  match file with
  | none => body
  | some f =>
    if jsStartsWith f.mimetype "image/" then body
    else ⟨some ⟨500, some "Invalid file type", none⟩, db, [], []⟩

/-- Shorthand for a handler result that only writes a response. -/
def respOnly (db : DB) (status : Nat) (msg : String) : HandlerResult :=
  ⟨some ⟨status, some msg, none⟩, db, [], []⟩

/-- The `Internal server error` 500 sent by each route's `catch` block. -/
def internalError : HttpResponse := ⟨500, some "Internal server error", none⟩

/-- `POST /api/image/upload/profile` (`src/api/routes/UploadImage.ts`).

Faithful points worth noting:
* `requestValidation(RequestType.UPLOAD_PROFILE, req)` — `UPLOAD_PROFILE`
  is not a member of the enum exported by `RequestValidation.ts`, so the
  argument is `undefined` at runtime and validation always passes.
* the `findUnique(...).catch(...)` on a database error sends the 500,
  resolves to `undefined`, and `undefined !== null` then attempts the 400
  `"Profile already exists."` write, which never reaches the client; a
  `NaN` id makes Prisma reject the query the same way.
* the `create(...).catch(...)` on a database error sends the 500 but only
  returns from the callback — execution continues and the S3 upload is
  still performed, after which the 200 write is ignored.
* a failed S3 upload throws out of the handler into its `catch`, which
  attempts the `Internal server error` 500. -/
def uploadProfileHandler (env : Env) (flt : Faults) (db : DB) (req : UploadReq) :
    HandlerResult :=
  multerSingle db req.file
    (match req.file with
     | none => respOnly db 400 "Missing image file."
     | some file =>
       if !(requestValidation none ⟨none, req.id, req.index⟩) then
         respOnly db 400 "Missing or invalid required parameters."
       else
         let imageHash := env.sha256 file.buffer
         let key := generateImageKey "profile" imageHash file.mimetype
         match parseIntJS req.id with
         | none => respOnly db 500 "Database error while checking profile."
         | some uid =>
           if flt.findFails then
             respOnly db 500 "Database error while checking profile."
           else
             match db.findProfile uid with
             | some _ => respOnly db 400 "Profile already exists."
             | none =>
               let step :=
                 if flt.writeFails then
                   (some (⟨500, some "Database error while creating profile.", none⟩ : HttpResponse), db)
                 else (none, db.createProfile ⟨uid, key⟩)
               match flt.putOutcome with
               | .failError =>
                 ⟨sendOnce step.1 internalError, step.2, [⟨key, file.mimetype⟩], []⟩
               | _ =>
                 ⟨sendOnce step.1
                    ⟨200, some "Image upload complete.", some (env.baseUrl ++ key)⟩,
                   step.2, [⟨key, file.mimetype⟩], []⟩)

/-- `POST /api/image/upload/listing` (`src/api/routes/UploadImage.ts`).
Same structure as the profile upload; the existence check is by
`listingId` alone (`findUnique({ where: { listingId } })`), the create
also stores `parseInt(index)` (a `NaN` index makes Prisma reject the
create), and the catch message of the create really says "profile" in the
source. -/
def uploadListingHandler (env : Env) (flt : Faults) (db : DB) (req : UploadReq) :
    HandlerResult :=
  multerSingle db req.file
    (match req.file with
     | none => respOnly db 400 "Missing image file."
     | some file =>
       if !(requestValidation none ⟨none, req.id, req.index⟩) then
         respOnly db 400 "Missing or invalid required parameters."
       else
         let imageHash := env.sha256 file.buffer
         let key := generateImageKey "listing" imageHash file.mimetype
         match parseIntJS req.id with
         | none => respOnly db 500 "Database error while checking listing."
         | some lid =>
           if flt.findFails then
             respOnly db 500 "Database error while checking listing."
           else
             match db.findListing lid with
             | some _ => respOnly db 400 "Listing already exists."
             | none =>
               let step :=
                 match parseIntJS req.index with
                 | none =>
                   (some (⟨500, some "Database error while creating profile.", none⟩ : HttpResponse), db)
                 | some idx =>
                   if flt.writeFails then
                     (some (⟨500, some "Database error while creating profile.", none⟩ : HttpResponse), db)
                   else (none, db.createListing ⟨lid, idx, key⟩)
               match flt.putOutcome with
               | .failError =>
                 ⟨sendOnce step.1 internalError, step.2, [⟨key, file.mimetype⟩], []⟩
               | _ =>
                 ⟨sendOnce step.1
                    ⟨200, some "Image upload complete.", some (env.baseUrl ++ key)⟩,
                   step.2, [⟨key, file.mimetype⟩], []⟩)

/-- `POST /api/image/update/profile` (`src/api/routes/UpdateImage.ts`).

* `RequestType.UPDATE_PROFILE` is likewise `undefined` → validation always
  passes (the source checks validation before the file).
* the old record is fetched first; on a database error the 500
  `"Database error while fetching old image key."` is sent and the falsy
  `undefined` then takes the `"Failed to fetch old key from database."`
  branch whose write is ignored.
* the `update(...).catch(...)` sends its 500 but execution continues: the
  new blob is still uploaded and the deletion of the old blob attempted.
* `deleteFile` (`src/S3.ts`) logs an `Error` failure and rethrows it, so
  the handler's `catch` attempts the `Internal server error` 500; a
  non-`Error` S3 rejection is swallowed inside `deleteFile`.
* the success message of this profile route really is
  `"Listing image updated."` in the source. -/
def updateProfileHandler (env : Env) (flt : Faults) (db : DB) (req : UploadReq) :
    HandlerResult :=
  multerSingle db req.file
    (if !(requestValidation none ⟨none, req.id, req.index⟩) then
       respOnly db 400 "Missing or invalid required parameters."
     else
       match req.file with
       | none => respOnly db 400 "Missing image file."
       | some file =>
         let key := generateImageKey "profile" (env.sha256 file.buffer) file.mimetype
         match parseIntJS req.id with
         | none => respOnly db 500 "Database error while fetching old image key."
         | some uid =>
           if flt.findFails then
             respOnly db 500 "Database error while fetching old image key."
           else
             match db.findProfile uid with
             | none => respOnly db 500 "Failed to fetch old key from database."
             | some oldRec =>
               let step :=
                 if flt.writeFails then
                   (some (⟨500, some "Database error while updating image key.", none⟩ : HttpResponse), db)
                 else (none, db.updateProfile uid key)
               match flt.putOutcome with
               | .failError =>
                 ⟨sendOnce step.1 internalError, step.2, [⟨key, file.mimetype⟩], []⟩
               | _ =>
                 match flt.delOutcome with
                 | .failError =>
                   ⟨sendOnce step.1 internalError, step.2,
                     [⟨key, file.mimetype⟩], [oldRec.image]⟩
                 | _ =>
                   ⟨sendOnce step.1
                      ⟨200, some "Listing image updated.", some (env.baseUrl ++ key)⟩,
                     step.2, [⟨key, file.mimetype⟩], [oldRec.image]⟩)

/-- `POST /api/image/update/listing` (`src/api/routes/UpdateImage.ts`).
There is no existence lookup at all: the route calls
`listing.update({ where: { listingId } })` directly, which Prisma rejects
when no such row exists (or on `NaN` arguments); the `.catch` sends the
500 `"Database error while updating listing."` but execution continues
and the new blob is still uploaded.  No old blob is ever deleted (the
source comments that it cannot). -/
def updateListingHandler (env : Env) (flt : Faults) (db : DB) (req : UploadReq) :
    HandlerResult :=
  multerSingle db req.file
    (if !(requestValidation none ⟨none, req.id, req.index⟩) then
       respOnly db 400 "Missing or invalid required parameters."
     else
       match req.file with
       | none => respOnly db 400 "Missing image file."
       | some file =>
         let key := generateImageKey "listing" (env.sha256 file.buffer) file.mimetype
         let step :=
           match parseIntJS req.id, parseIntJS req.index with
           | some lid, some idx =>
             if flt.writeFails then
               (some (⟨500, some "Database error while updating listing.", none⟩ : HttpResponse), db)
             else
               match db.findListing lid with
               | some _ => (none, db.updateListing lid idx key)
               | none =>
                 (some (⟨500, some "Database error while updating listing.", none⟩ : HttpResponse), db)
           | _, _ =>
             (some (⟨500, some "Database error while updating listing.", none⟩ : HttpResponse), db)
         match flt.putOutcome with
         | .failError =>
           ⟨sendOnce step.1 internalError, step.2, [⟨key, file.mimetype⟩], []⟩
         | _ =>
           ⟨sendOnce step.1
              ⟨200, some "Listing image updated.", some (env.baseUrl ++ key)⟩,
             step.2, [⟨key, file.mimetype⟩], []⟩)

/-- `POST /api/image/delete/profile` (`src/api/routes/DeleteImage.ts`).

* the route passes the literal `'delete'` to `requestValidation`, which
  hits the `default` branch and accepts every request;
* a missing/`NaN` id or a database error on the lookup sends the 500
  `"Database error while fetching profile."` (the falsy branch's
  `"Failed to delete profile from database."` write is then ignored);
* the `delete(...).catch(...)` sends its 500 but execution continues: the
  S3 delete is still attempted and the 200 write ignored;
* a failed S3 delete (an `Error`) is logged inside `deleteFile` and
  rethrown, so the handler's `catch` sends `Internal server error`. -/
def deleteProfileHandler (_env : Env) (flt : Faults) (db : DB) (req : UploadReq) :
    HandlerResult :=
  multerSingle db req.file
    (if !(requestValidation (some "delete") ⟨none, req.id, req.index⟩) then
       respOnly db 400 "Missing or invalid required parameters."
     else
       match parseIntJS req.id with
       | none => respOnly db 500 "Database error while fetching profile."
       | some uid =>
         if flt.findFails then
           respOnly db 500 "Database error while fetching profile."
         else
           match db.findProfile uid with
           | none => respOnly db 500 "Failed to delete profile from database."
           | some profile =>
             let step :=
               if flt.writeFails then
                 (some (⟨500, some "Database error while deleting profile.", none⟩ : HttpResponse), db)
               else (none, db.deleteProfile uid)
             match flt.delOutcome with
             | .failError =>
               ⟨sendOnce step.1 internalError, step.2, [], [profile.image]⟩
             | _ =>
               ⟨sendOnce step.1 ⟨200, some "Profile image deleted.", none⟩,
                 step.2, [], [profile.image]⟩)

/-- `POST /api/image/delete/listing` (`src/api/routes/DeleteImage.ts`):
like the profile delete but the lookup is `findFirst({ listingId, index })`
and the removal `deleteMany({ listingId, index })`. -/
def deleteListingHandler (_env : Env) (flt : Faults) (db : DB) (req : UploadReq) :
    HandlerResult :=
  multerSingle db req.file
    (if !(requestValidation (some "delete") ⟨none, req.id, req.index⟩) then
       respOnly db 400 "Missing or invalid required parameters."
     else
       match parseIntJS req.id, parseIntJS req.index with
       | some lid, some idx =>
         if flt.findFails then
           respOnly db 500 "Database error while fetching listing."
         else
           match db.findListingFirst lid idx with
           | none => respOnly db 500 "Failed to delete listing from database."
           | some listing =>
             let step :=
               if flt.writeFails then
                 (some (⟨500, some "Database error while deleting listing.", none⟩ : HttpResponse), db)
               else (none, db.deleteListings lid idx)
             match flt.delOutcome with
             | .failError =>
               ⟨sendOnce step.1 internalError, step.2, [], [listing.image]⟩
             | _ =>
               ⟨sendOnce step.1 ⟨200, some "Listing image deleted.", none⟩,
                 step.2, [], [listing.image]⟩
       | _, _ => respOnly db 500 "Database error while fetching listing.")

/-- A retrieve request: the URL parameters and the parsed JSON body
(`express.json()` initialises `req.body` to `{}` for a bodyless GET, so
the body fields default to `undefined`). -/
structure RetrieveReq where
  paramsId : String
  paramsIndex : Option String := none
  body : ValReq := {}
deriving Repr, DecidableEq

/-- `GET /api/image/retrieve/profile/:id` (`src/api/routes/RetrieveImage.ts`).
`requestValidation(RequestType.PROFILE, req)` inspects `req.body.id` — not
the URL parameter — so a GET without a JSON body carrying a truthy `id` is
rejected with the 400.  The lookup itself uses `parseInt(req.params.id)`.
On success the route responds `{ imageUrl: baseUrl + record.image }` with
no `message` field; an absent record takes the
`"Failed to retrieve profile from database."` 500 branch.  No store
mutation is performed on any path. -/
def retrieveProfileHandler (env : Env) (flt : Faults) (db : DB) (req : RetrieveReq) :
    HandlerResult :=
  if !(requestValidation (some "profile") req.body) then
    respOnly db 400 "Missing or invalid required parameters."
  else
    match parseIntJS (some req.paramsId) with
    | none => respOnly db 500 "Database error while fetching profile."
    | some uid =>
      if flt.findFails then
        respOnly db 500 "Database error while fetching profile."
      else
        match db.findProfile uid with
        | none => respOnly db 500 "Failed to retrieve profile from database."
        | some profile =>
          ⟨some ⟨200, none, some (env.baseUrl ++ profile.image)⟩, db, [], []⟩

/-- `GET /api/image/retrieve/listing/:id/:index`
(`src/api/routes/RetrieveImage.ts`): like the profile retrieve but
validated as `RequestType.LISTING` (body `id` and `index` must be truthy)
and looked up with `findFirst({ listingId, index })` from the URL
parameters. -/
def retrieveListingHandler (env : Env) (flt : Faults) (db : DB) (req : RetrieveReq) :
    HandlerResult :=
  if !(requestValidation (some "listing") req.body) then
    respOnly db 400 "Missing or invalid required parameters."
  else
    match parseIntJS (some req.paramsId), parseIntJS req.paramsIndex with
    | some lid, some idx =>
      if flt.findFails then
        respOnly db 500 "Database error while fetching listing."
      else
        match db.findListingFirst lid idx with
        | none => respOnly db 500 "Failed to retrieve listing from database."
        | some listing =>
          ⟨some ⟨200, none, some (env.baseUrl ++ listing.image)⟩, db, [], []⟩
    | _, _ => respOnly db 500 "Database error while fetching listing."

/-! Concrete fixtures used by witnesses and counterexamples. -/

/-- A 64-character lowercase-hex digest (all `a`). -/
def hashA : String :=
  "aaaaaaaaaaaaaaaaaaaaaaaaaaaaaaaaaaaaaaaaaaaaaaaaaaaaaaaaaaaaaaaa"

/-- Concrete environment: a hash function that digests every buffer to
`hashA`, and a bucket name. -/
def envA : Env := { sha256 := fun _ => hashA, bucket := "browsebox" }

/-- Empty database. -/
def dbEmpty : DB := ⟨[], []⟩

/-- A PNG file part. -/
def pngFile : FileData := { originalname := "a.png", mimetype := "image/png", buffer := [1, 2, 3] }

/-- A non-image file part. -/
def textFile : FileData := { originalname := "a.txt", mimetype := "text/plain", buffer := [1, 2, 3] }

/-- The storage key of a previously stored profile image. -/
def oldKeyP : String := "assets/img/profile/b/bb/old.png"

/-- Database holding one profile row for user 7. -/
def dbOneProfile : DB := ⟨[⟨7, oldKeyP⟩], []⟩

/-- Database holding one listing row for listing 7, index 0. -/
def dbOneListing : DB := ⟨[], [⟨7, 0, "assets/img/listing/b/bb/old.png"⟩]⟩

/-- The profile key `generateImageKey` derives for `hashA` and `image/png`. -/
def keyP : String := "assets/img/profile/a/aa/" ++ hashA ++ ".png"

/-- The listing key `generateImageKey` derives for `hashA` and `image/png`. -/
def keyL : String := "assets/img/listing/a/aa/" ++ hashA ++ ".png"

/-- An upload/update/delete request for id 7 with a PNG attached. -/
def reqPng7 : UploadReq := { id := some "7", file := some pngFile }

/-- A listing request for id 7, index 0, with a PNG attached. -/
def reqPng7i0 : UploadReq := { id := some "7", index := some "0", file := some pngFile }

/-- An upload request carrying a `text/plain` file. -/
def reqText7 : UploadReq := { id := some "7", file := some textFile }

/-- A bare delete request for id 7. -/
def reqDel7 : UploadReq := { id := some "7" }

/-- Same PNG upload as `reqPng7` but for user id 9. -/
def reqPng9 : UploadReq := { id := some "9", file := some pngFile }

/-- Fault record: the Prisma write (create/update/delete) rejects. -/
def fltWriteFails : Faults := { writeFails := true }

/-- Fault record: the S3 delete rejects with an `Error`. -/
def fltDelFails : Faults := { delOutcome := S3Outcome.failError }

end BrowseBox

namespace BrowseBox

theorem splitCharAux_no_sep (sep : Char) (l : List Char) (h : sep ∉ l) :
    splitCharAux sep l = [l] := by
  induction l with
  | nil => rfl
  | cons c cs ih =>
    have hc : ¬ c = sep := fun hcc => h (hcc ▸ List.mem_cons_self c cs)
    have hcs : sep ∉ cs := fun hm => h (List.mem_cons_of_mem _ hm)
    simp [splitCharAux, hc, ih hcs]

theorem splitCharAux_once (sep : Char) (l1 l2 : List Char)
    (h1 : sep ∉ l1) (h2 : sep ∉ l2) :
    splitCharAux sep (l1 ++ sep :: l2) = [l1, l2] := by
  induction l1 with
  | nil => simp [splitCharAux, splitCharAux_no_sep sep l2 h2]
  | cons c cs ih =>
    have hc : ¬ c = sep := fun hcc => h1 (hcc ▸ List.mem_cons_self c cs)
    have hcs : sep ∉ cs := fun hm => h1 (List.mem_cons_of_mem _ hm)
    simp [splitCharAux, hc, ih hcs]

theorem string_mk_data (s : String) : String.mk s.data = s := rfl

theorem jsSplit_image (sub : String) (hsub : '/' ∉ sub.data) :
    jsSplit ("image/" ++ sub) '/' = ["image", sub] := by
  have hd : ("image/" ++ sub).data = "image".data ++ '/' :: sub.data := by
    cases sub with
    | mk l => rfl
  have h1 : '/' ∉ "image".data := by decide
  rw [jsSplit, hd, splitCharAux_once '/' _ _ h1 hsub]
  simp [string_mk_data]

end BrowseBox

namespace BrowseBox

/-- Claim C6: for every kind in the set containing profile and listing,
every 64-hex-character content hash `h`, and every mime type of the form
`image/` followed by a slash-free non-empty subtype, the derived storage
key equals `assets/img/{kind}/{h0}/{h01}/{h}.{ext}` where `h0` is the
first character of `h`, `h01` its first two characters, and `ext` the
subtype after `image/`. -/
theorem c6_storageKeyShape (kind h sub : String)
    (hkind : kind = "profile" ∨ kind = "listing")
    (hh : isHexDigest64 h = true)
    (hsub1 : sub ≠ "") (hsub2 : '/' ∉ sub.data) :
    generateImageKey kind h ("image/" ++ sub) =
      "assets/img/" ++ kind ++ "/" ++ String.mk (h.data.take 1) ++ "/" ++
        String.mk (h.data.take 2) ++ "/" ++ h ++ "." ++ sub := by
  have hs := jsSplit_image sub hsub2
  rcases hkind with hk | hk <;>
    simp [generateImageKey, hs, hk, jsSubstring]

/-- Witness for C6 at kind profile, the all-`a` digest, subtype `png`. -/
theorem c6_storageKeyShape_witness :
    isHexDigest64 hashA = true ∧
    generateImageKey "profile" hashA ("image/" ++ "png") =
      "assets/img/" ++ "profile" ++ "/" ++ String.mk (hashA.data.take 1) ++ "/" ++
        String.mk (hashA.data.take 2) ++ "/" ++ hashA ++ "." ++ "png" :=
  ⟨by decide,
    c6_storageKeyShape "profile" hashA "png" (Or.inl rfl) (by decide) (by decide)
      (by decide)⟩

/-- Counterexample to claim C7 as stated: key derivation does not fail on
a mime type that does not start with `image/` — `generateImageKey` is
total, performs no validation, and on `text/plain` happily returns a key
with extension `plain`. -/
theorem c7_keyDerivationSucceedsOnTextPlain :
    generateImageKey "profile" hashA "text/plain" =
      "assets/img/profile/a/aa/" ++ hashA ++ ".plain" := by decide

/-- Claim C7 as amended: the media-type check lives in the multer
`fileFilter`, not in key derivation.  An upload whose file has mime type
`text/plain` is rejected with the `Invalid file type` 500 before the
handler body runs, so no database call and no S3 call happens; and
`generateImageKey` itself succeeds on `text/plain`, returning a key whose
extension is the text after the first slash. -/
theorem c7_fileFilterRejectsNonImage (env : Env) (flt : Faults) (db : DB)
    (req : UploadReq) (f : FileData) (h : String)
    (hf : req.file = some f) (hm : f.mimetype = "text/plain") :
    uploadProfileHandler env flt db req =
      ⟨some ⟨500, some "Invalid file type", none⟩, db, [], []⟩ ∧
    generateImageKey "profile" h "text/plain" =
      "assets/img/" ++ "profile" ++ "/" ++ String.mk (h.data.take 1) ++ "/" ++
        String.mk (h.data.take 2) ++ "/" ++ h ++ "." ++ "plain" := by
  constructor
  · have hns : jsStartsWith "text/plain" "image/" = false := by decide
    simp [uploadProfileHandler, multerSingle, hf, hm, hns]
  · have hs : jsSplit "text/plain" '/' = ["text", "plain"] := by decide
    simp [generateImageKey, hs, jsSubstring]

/-- Witness for the amended C7 at the concrete `text/plain` request. -/
theorem c7_fileFilterRejectsNonImage_witness :
    reqText7.file = some textFile ∧ textFile.mimetype = "text/plain" ∧
    (uploadProfileHandler envA {} dbEmpty reqText7 =
      ⟨some ⟨500, some "Invalid file type", none⟩, dbEmpty, [], []⟩ ∧
    generateImageKey "profile" hashA "text/plain" =
      "assets/img/" ++ "profile" ++ "/" ++ String.mk (hashA.data.take 1) ++ "/" ++
        String.mk (hashA.data.take 2) ++ "/" ++ hashA ++ "." ++ "plain") :=
  ⟨rfl, rfl, c7_fileFilterRejectsNonImage envA {} dbEmpty reqText7 textFile hashA rfl rfl⟩

/-- Claim C8: key derivation is deterministic — two calls of
`generateImageKey` on the same inputs agree — and the storage key an
upload sends to S3 depends only on the file bytes and mime type, not on
the identity: two profile uploads with the same buffer and mime type but
different ids send identical put requests. -/
theorem c8_keyDeterminism (k h m : String) (env : Env) (flt : Faults)
    (db1 db2 : DB) (req1 req2 : UploadReq) (f1 f2 : FileData) (uid1 uid2 : Int)
    (h1 : req1.file = some f1) (h2 : req2.file = some f2)
    (hb : f1.buffer = f2.buffer) (hmt : f1.mimetype = f2.mimetype)
    (him : jsStartsWith f2.mimetype "image/" = true)
    (hp1 : parseIntJS req1.id = some uid1) (hp2 : parseIntJS req2.id = some uid2)
    (hff : flt.findFails = false) (hwf : flt.writeFails = false)
    (hd1 : db1.findProfile uid1 = none) (hd2 : db2.findProfile uid2 = none) :
    generateImageKey k h m = generateImageKey k h m ∧
    (uploadProfileHandler env flt db1 req1).puts =
      (uploadProfileHandler env flt db2 req2).puts := by
  refine ⟨rfl, ?_⟩
  cases hq : flt.putOutcome <;>
    simp [uploadProfileHandler, multerSingle, requestValidation, h1, h2, hb, hmt,
      him, hp1, hp2, hff, hwf, hd1, hd2, hq]

/-- Witness for C8: ids 7 and 9 with the same PNG produce the same put. -/
theorem c8_keyDeterminism_witness :
    pngFile.buffer = pngFile.buffer ∧ parseIntJS reqPng7.id = some 7 ∧
    parseIntJS reqPng9.id = some 9 ∧
    (generateImageKey "profile" hashA "image/png" =
        generateImageKey "profile" hashA "image/png" ∧
      (uploadProfileHandler envA {} dbEmpty reqPng7).puts =
        (uploadProfileHandler envA {} dbEmpty reqPng9).puts) :=
  ⟨rfl, by decide, by decide,
    c8_keyDeterminism "profile" hashA "image/png" envA {} dbEmpty dbEmpty reqPng7
      reqPng9 pngFile pngFile 7 9 rfl rfl rfl rfl (by decide) (by decide) (by decide)
      rfl rfl rfl rfl⟩

end BrowseBox

namespace BrowseBox

/-- Claim C1, evaluated at the failing input (code bug): on a profile
upload whose database insert rejects, the route sends the
`Database error while creating profile.` 500 — but the `.catch` callback
only returns from itself, so the handler continues and still uploads the
blob to S3, contradicting the spec sentence that the blob must not be
uploaded when insertion fails. -/
theorem c1_insertFailureStillUploads :
    uploadProfileHandler envA fltWriteFails dbEmpty reqPng7 =
      ⟨some ⟨500, some "Database error while creating profile.", none⟩, dbEmpty,
        [⟨keyP, "image/png"⟩], []⟩ := by decide

/-- Claim C2: a create on an identity that already has a record responds
400 `already exists` and performs no store mutation — the database is
unchanged and no S3 put or delete is sent — for the profile and the
listing kind alike. -/
theorem c2_secondCreateRejected (env : Env) (flt : Faults) (dbp dbl : DB)
    (reqp reql : UploadReq) (fp fl : FileData) (uid lid : Int)
    (rp : ProfileRec) (rl : ListingRec)
    (hfp : reqp.file = some fp) (himp : jsStartsWith fp.mimetype "image/" = true)
    (hpp : parseIntJS reqp.id = some uid) (hff : flt.findFails = false)
    (hrp : dbp.findProfile uid = some rp)
    (hfl : reql.file = some fl) (himl : jsStartsWith fl.mimetype "image/" = true)
    (hpl : parseIntJS reql.id = some lid)
    (hrl : dbl.findListing lid = some rl) :
    uploadProfileHandler env flt dbp reqp =
      ⟨some ⟨400, some "Profile already exists.", none⟩, dbp, [], []⟩ ∧
    uploadListingHandler env flt dbl reql =
      ⟨some ⟨400, some "Listing already exists.", none⟩, dbl, [], []⟩ := by
  constructor
  · simp [uploadProfileHandler, multerSingle, requestValidation, respOnly,
      hfp, himp, hpp, hff, hrp]
  · simp [uploadListingHandler, multerSingle, requestValidation, respOnly,
      hfl, himl, hpl, hff, hrl]

/-- Witness for C2 on the one-profile and one-listing databases. -/
theorem c2_secondCreateRejected_witness :
    dbOneProfile.findProfile 7 = some ⟨7, oldKeyP⟩ ∧
    dbOneListing.findListing 7 = some ⟨7, 0, "assets/img/listing/b/bb/old.png"⟩ ∧
    (uploadProfileHandler envA {} dbOneProfile reqPng7 =
      ⟨some ⟨400, some "Profile already exists.", none⟩, dbOneProfile, [], []⟩ ∧
    uploadListingHandler envA {} dbOneListing reqPng7i0 =
      ⟨some ⟨400, some "Listing already exists.", none⟩, dbOneListing, [], []⟩) :=
  ⟨by decide, by decide,
    c2_secondCreateRejected envA {} dbOneProfile dbOneListing reqPng7 reqPng7i0
      pngFile pngFile 7 7 ⟨7, oldKeyP⟩ ⟨7, 0, "assets/img/listing/b/bb/old.png"⟩
      rfl (by decide) (by decide) rfl (by decide) rfl (by decide) (by decide)
      (by decide)⟩

end BrowseBox

namespace BrowseBox

/-- Counterexample to claim C3 as stated: a profile replace whose record
update and new-blob upload succeed but whose old-blob S3 delete rejects
with an `Error` does NOT complete successfully — `deleteFile` logs and
rethrows, the handler catch sends `Internal server error`, and the new
key is never returned to the caller. -/
theorem c3_oldBlobDeleteFailureNotTolerated :
    updateProfileHandler envA fltDelFails dbOneProfile reqPng7 =
      ⟨some internalError, ⟨[⟨7, keyP⟩], []⟩, [⟨keyP, "image/png"⟩], [oldKeyP]⟩ := by
  decide

/-- Claim C3 as amended: when the record update and the new-blob upload of
a profile replace succeed and the deletion of the old blob fails with an
`Error`, the failure is logged inside `deleteFile` but rethrown: the
operation responds 500 `Internal server error` instead of succeeding,
while the record already points at the new key, the new blob is uploaded,
and the delete of the old key was attempted. -/
theorem c3_deleteFailurePropagates (env : Env) (flt : Faults) (db : DB)
    (req : UploadReq) (f : FileData) (uid : Int) (oldRec : ProfileRec)
    (hf : req.file = some f) (him : jsStartsWith f.mimetype "image/" = true)
    (hp : parseIntJS req.id = some uid)
    (hff : flt.findFails = false) (hwf : flt.writeFails = false)
    (hput : flt.putOutcome = S3Outcome.ok)
    (hdel : flt.delOutcome = S3Outcome.failError)
    (hold : db.findProfile uid = some oldRec) :
    updateProfileHandler env flt db req =
      ⟨some internalError,
        db.updateProfile uid (generateImageKey "profile" (env.sha256 f.buffer) f.mimetype),
        [⟨generateImageKey "profile" (env.sha256 f.buffer) f.mimetype, f.mimetype⟩],
        [oldRec.image]⟩ := by
  simp [updateProfileHandler, multerSingle, requestValidation, sendOnce,
    hf, him, hp, hff, hwf, hput, hdel, hold]

/-- Witness for the amended C3 at the concrete one-profile database. -/
theorem c3_deleteFailurePropagates_witness :
    fltDelFails.delOutcome = S3Outcome.failError ∧
    dbOneProfile.findProfile 7 = some ⟨7, oldKeyP⟩ ∧
    updateProfileHandler envA fltDelFails dbOneProfile reqPng7 =
      ⟨some internalError,
        dbOneProfile.updateProfile 7 (generateImageKey "profile" (envA.sha256 pngFile.buffer) pngFile.mimetype),
        [⟨generateImageKey "profile" (envA.sha256 pngFile.buffer) pngFile.mimetype, pngFile.mimetype⟩],
        [oldKeyP]⟩ :=
  ⟨rfl, by decide,
    c3_deleteFailurePropagates envA fltDelFails dbOneProfile reqPng7 pngFile 7
      ⟨7, oldKeyP⟩ rfl (by decide) (by decide) rfl rfl rfl rfl (by decide)⟩

/-- Counterexample to claim C4 as stated: a listing replace on an empty
database — no record exists for the identity — still performs a store
mutation: the record update rejects and its `.catch` sends the 500, but
execution continues and the new blob is uploaded to S3. -/
theorem c4_listingReplaceUploadsWithoutRecord :
    updateListingHandler envA {} dbEmpty reqPng7i0 =
      ⟨some ⟨500, some "Database error while updating listing.", none⟩, dbEmpty,
        [⟨keyL, "image/png"⟩], []⟩ := by decide

/-- Claim C4 as amended: a profile replace on an absent identity fails via
the absent-record branch (500, `Failed to fetch old key from database.`)
with no record update, no blob upload and no blob delete; a listing
replace performs no existence lookup at all — on an absent identity the
record update rejects, a 500 database-error response is sent, the record
store is unchanged, but the new blob is still uploaded. -/
theorem c4_replaceOnAbsentIdentity (env : Env) (flt : Faults)
    (dbp dbl : DB) (reqp reql : UploadReq) (fp fl : FileData) (uid lid idx : Int)
    (hfp : reqp.file = some fp) (himp : jsStartsWith fp.mimetype "image/" = true)
    (hpp : parseIntJS reqp.id = some uid) (hff : flt.findFails = false)
    (habsp : dbp.findProfile uid = none)
    (hfl : reql.file = some fl) (himl : jsStartsWith fl.mimetype "image/" = true)
    (hpl : parseIntJS reql.id = some lid) (hpi : parseIntJS reql.index = some idx)
    (hwf : flt.writeFails = false)
    (habsl : dbl.findListing lid = none) :
    updateProfileHandler env flt dbp reqp =
      ⟨some ⟨500, some "Failed to fetch old key from database.", none⟩, dbp, [], []⟩ ∧
    updateListingHandler env flt dbl reql =
      ⟨some ⟨500, some "Database error while updating listing.", none⟩, dbl,
        [⟨generateImageKey "listing" (env.sha256 fl.buffer) fl.mimetype, fl.mimetype⟩],
        []⟩ := by
  constructor
  · simp [updateProfileHandler, multerSingle, requestValidation, respOnly,
      hfp, himp, hpp, hff, habsp]
  · cases hq : flt.putOutcome <;>
      simp [updateListingHandler, multerSingle, requestValidation, sendOnce,
        hfl, himl, hpl, hpi, hwf, habsl, hq]

/-- Witness for the amended C4 on the empty database. -/
theorem c4_replaceOnAbsentIdentity_witness :
    dbEmpty.findProfile 7 = none ∧ dbEmpty.findListing 7 = none ∧
    (updateProfileHandler envA {} dbEmpty reqPng7 =
      ⟨some ⟨500, some "Failed to fetch old key from database.", none⟩, dbEmpty, [], []⟩ ∧
    updateListingHandler envA {} dbEmpty reqPng7i0 =
      ⟨some ⟨500, some "Database error while updating listing.", none⟩, dbEmpty,
        [⟨generateImageKey "listing" (envA.sha256 pngFile.buffer) pngFile.mimetype, pngFile.mimetype⟩],
        []⟩) :=
  ⟨rfl, rfl,
    c4_replaceOnAbsentIdentity envA {} dbEmpty dbEmpty reqPng7 reqPng7i0 pngFile
      pngFile 7 7 0 rfl (by decide) (by decide) rfl rfl rfl (by decide) (by decide)
      (by decide) rfl rfl⟩

/-- Counterexample to claim C5 as stated: a profile delete whose record is
found and removed from the database but whose S3 blob delete rejects with
an `Error` does NOT report success — `deleteFile` rethrows and the caller
receives 500 `Internal server error`. -/
theorem c5_blobDeleteFailureNotSuccess :
    deleteProfileHandler envA fltDelFails dbOneProfile reqDel7 =
      ⟨some internalError, dbEmpty, [], [oldKeyP]⟩ := by decide

/-- Claim C5 as amended: after the record is found and deleted, a blob
deletion that rejects with an `Error` is logged inside `deleteFile` but
rethrown, so the caller receives 500 `Internal server error` (the record
stays deleted and the S3 delete was attempted); only a non-`Error` S3
rejection is silently swallowed, in which case the route does report the
200 success. -/
theorem c5_deleteBlobFailure (env : Env) (flt1 flt2 : Faults) (db : DB)
    (req : UploadReq) (uid : Int) (rec : ProfileRec)
    (hfile : req.file = none)
    (hp : parseIntJS req.id = some uid)
    (hff1 : flt1.findFails = false) (hwf1 : flt1.writeFails = false)
    (hdel1 : flt1.delOutcome = S3Outcome.failError)
    (hff2 : flt2.findFails = false) (hwf2 : flt2.writeFails = false)
    (hdel2 : flt2.delOutcome = S3Outcome.failNonError)
    (hrec : db.findProfile uid = some rec) :
    deleteProfileHandler env flt1 db req =
      ⟨some internalError, db.deleteProfile uid, [], [rec.image]⟩ ∧
    deleteProfileHandler env flt2 db req =
      ⟨some ⟨200, some "Profile image deleted.", none⟩, db.deleteProfile uid, [],
        [rec.image]⟩ := by
  constructor
  · simp [deleteProfileHandler, multerSingle, requestValidation, sendOnce,
      hfile, hp, hff1, hwf1, hdel1, hrec]
  · simp [deleteProfileHandler, multerSingle, requestValidation, sendOnce,
      hfile, hp, hff2, hwf2, hdel2, hrec]

/-- Witness for the amended C5 on the one-profile database. -/
theorem c5_deleteBlobFailure_witness :
    dbOneProfile.findProfile 7 = some ⟨7, oldKeyP⟩ ∧
    (deleteProfileHandler envA fltDelFails dbOneProfile reqDel7 =
      ⟨some internalError, dbOneProfile.deleteProfile 7, [], [oldKeyP]⟩ ∧
    deleteProfileHandler envA { delOutcome := S3Outcome.failNonError } dbOneProfile reqDel7 =
      ⟨some ⟨200, some "Profile image deleted.", none⟩, dbOneProfile.deleteProfile 7,
        [], [oldKeyP]⟩) :=
  ⟨by decide,
    c5_deleteBlobFailure envA fltDelFails { delOutcome := S3Outcome.failNonError }
      dbOneProfile reqDel7 7 ⟨7, oldKeyP⟩ rfl (by decide) rfl rfl rfl rfl rfl rfl
      (by decide)⟩

end BrowseBox

namespace BrowseBox

/-- Counterexample to claim C9 as stated: a retrieve for a profile whose
record exists (user 7 in the one-profile database) does not return the
storage key when the GET carries no JSON body — `requestValidation`
inspects `req.body.id`, not the URL parameter, so the request is rejected
with the 400 before any lookup. -/
theorem c9_retrieveRejectedWithoutBodyId :
    retrieveProfileHandler envA {} dbOneProfile { paramsId := "7" } =
      ⟨some ⟨400, some "Missing or invalid required parameters.", none⟩,
        dbOneProfile, [], []⟩ := by decide

/-- Claim C9 as amended: for every retrieve request that passes the body
validation (a truthy `body.id`, plus a truthy `body.index` for listings —
the validation reads the JSON body, not the URL parameters), if the
record for the URL id exists the route responds 200 with the base URL
concatenated with the record storage key, unchanged, and performs no
store mutation; if the record is absent it fails via the absent-record
branch (500, `Failed to retrieve ... from database.`), again with no
mutation. -/
theorem c9_locateReturnsKey (env : Env) (flt : Faults)
    (db1 db2 db3 db4 : DB) (req1 req2 req3 req4 : RetrieveReq)
    (uid1 uid2 lid3 idx3 lid4 idx4 : Int) (rec : ProfileRec) (lrec : ListingRec)
    (hff : flt.findFails = false)
    (hv1 : truthyStr req1.body.id = true)
    (hp1 : parseIntJS (some req1.paramsId) = some uid1)
    (hr1 : db1.findProfile uid1 = some rec)
    (hv2 : truthyStr req2.body.id = true)
    (hp2 : parseIntJS (some req2.paramsId) = some uid2)
    (hr2 : db2.findProfile uid2 = none)
    (hv3 : truthyStr req3.body.id = true) (hv3i : truthyStr req3.body.index = true)
    (hp3 : parseIntJS (some req3.paramsId) = some lid3)
    (hp3i : parseIntJS req3.paramsIndex = some idx3)
    (hr3 : db3.findListingFirst lid3 idx3 = some lrec)
    (hv4 : truthyStr req4.body.id = true) (hv4i : truthyStr req4.body.index = true)
    (hp4 : parseIntJS (some req4.paramsId) = some lid4)
    (hp4i : parseIntJS req4.paramsIndex = some idx4)
    (hr4 : db4.findListingFirst lid4 idx4 = none) :
    retrieveProfileHandler env flt db1 req1 =
      ⟨some ⟨200, none, some (env.baseUrl ++ rec.image)⟩, db1, [], []⟩ ∧
    retrieveProfileHandler env flt db2 req2 =
      ⟨some ⟨500, some "Failed to retrieve profile from database.", none⟩, db2, [], []⟩ ∧
    retrieveListingHandler env flt db3 req3 =
      ⟨some ⟨200, none, some (env.baseUrl ++ lrec.image)⟩, db3, [], []⟩ ∧
    retrieveListingHandler env flt db4 req4 =
      ⟨some ⟨500, some "Failed to retrieve listing from database.", none⟩, db4, [], []⟩ := by
  refine ⟨?_, ?_, ?_, ?_⟩ <;>
    simp [retrieveProfileHandler, retrieveListingHandler, requestValidation, respOnly,
      hff, hv1, hp1, hr1, hv2, hp2, hr2, hv3, hv3i, hp3, hp3i, hr3, hv4, hv4i, hp4,
      hp4i, hr4]

/-- Witness for the amended C9 at concrete requests that do carry the
body fields. -/
theorem c9_locateReturnsKey_witness :
    truthyStr (some "7") = true ∧
    dbOneProfile.findProfile 7 = some ⟨7, oldKeyP⟩ ∧
    (retrieveProfileHandler envA {} dbOneProfile
        { paramsId := "7", body := { id := some "7" } } =
      ⟨some ⟨200, none, some (envA.baseUrl ++ oldKeyP)⟩, dbOneProfile, [], []⟩ ∧
    retrieveProfileHandler envA {} dbEmpty
        { paramsId := "7", body := { id := some "7" } } =
      ⟨some ⟨500, some "Failed to retrieve profile from database.", none⟩, dbEmpty, [], []⟩ ∧
    retrieveListingHandler envA {} dbOneListing
        { paramsId := "7", paramsIndex := some "0",
          body := { id := some "7", index := some "0" } } =
      ⟨some ⟨200, none, some (envA.baseUrl ++ "assets/img/listing/b/bb/old.png")⟩,
        dbOneListing, [], []⟩ ∧
    retrieveListingHandler envA {} dbEmpty
        { paramsId := "7", paramsIndex := some "0",
          body := { id := some "7", index := some "0" } } =
      ⟨some ⟨500, some "Failed to retrieve listing from database.", none⟩, dbEmpty, [], []⟩) :=
  ⟨rfl, by decide,
    c9_locateReturnsKey envA {} dbOneProfile dbEmpty dbOneListing dbEmpty
      { paramsId := "7", body := { id := some "7" } }
      { paramsId := "7", body := { id := some "7" } }
      { paramsId := "7", paramsIndex := some "0",
        body := { id := some "7", index := some "0" } }
      { paramsId := "7", paramsIndex := some "0",
        body := { id := some "7", index := some "0" } }
      7 7 7 0 7 0 ⟨7, oldKeyP⟩ ⟨7, 0, "assets/img/listing/b/bb/old.png"⟩
      rfl rfl (by decide) (by decide) rfl (by decide) rfl rfl rfl (by decide)
      (by decide) (by decide) rfl rfl (by decide) (by decide) rfl⟩

/-- Claim C10: `requestValidation` returns true for every request whenever
its first argument is not the profile or listing enum value; the delete
routes pass the literal `delete`, so every delete request — including one
whose body id is missing — passes validation, and neither delete handler
can ever produce the validation 400 response. -/
theorem c10_validationDefaultAcceptsAll (rt : Option String) (vr : ValReq)
    (env1 env2 : Env) (flt1 flt2 : Faults) (db1 db2 : DB) (req1 req2 : UploadReq)
    (h1 : rt ≠ some "profile") (h2 : rt ≠ some "listing") :
    requestValidation rt vr = true ∧
    requestValidation (some "delete") vr = true ∧
    (deleteProfileHandler env1 flt1 db1 req1).response ≠
      some ⟨400, some "Missing or invalid required parameters.", none⟩ ∧
    (deleteListingHandler env2 flt2 db2 req2).response ≠
      some ⟨400, some "Missing or invalid required parameters.", none⟩ := by
  refine ⟨?_, rfl, ?_, ?_⟩
  · unfold requestValidation
    split
    · simp_all
    · simp_all
    · rfl
  · simp only [deleteProfileHandler, multerSingle, requestValidation]
    repeat' split
    all_goals simp_all [sendOnce, respOnly, internalError]
  · simp only [deleteListingHandler, multerSingle, requestValidation]
    repeat' split
    all_goals simp_all [sendOnce, respOnly, internalError]

/-- Witness for C10: the literal `delete` with a body that has no id at
all still validates, and the delete handlers never answer with the
validation 400. -/
theorem c10_validationDefaultAcceptsAll_witness :
    (some "delete" : Option String) ≠ some "profile" ∧
    (some "delete" : Option String) ≠ some "listing" ∧
    (requestValidation (some "delete") {} = true ∧
     requestValidation (some "delete") {} = true ∧
     (deleteProfileHandler envA {} dbEmpty {}).response ≠
       some ⟨400, some "Missing or invalid required parameters.", none⟩ ∧
     (deleteListingHandler envA {} dbEmpty {}).response ≠
       some ⟨400, some "Missing or invalid required parameters.", none⟩) :=
  ⟨by decide, by decide,
    c10_validationDefaultAcceptsAll (some "delete") {} envA envA {} {} dbEmpty
      dbEmpty {} {} (by decide) (by decide)⟩

end BrowseBox
